import Mathlib

/-!
Verification of the AS2025_WEB303 repository against its natural-language
specification.  The Go sources are shallowly embedded: each handler or
service method becomes a pure Lean function over explicit inputs standing
for the remote calls, the registry response and the store state.
-/

namespace Practical3

/-- A healthy service instance as returned by the registry
(`service.Service.Address` / `service.Service.Port` in the Go source). -/
structure ServiceEntry where
  address : String
  port : Nat
deriving Repr, DecidableEq

/-- `fmt.Sprintf("%s:%d", service.Service.Address, service.Service.Port)`. -/
def formatEndpoint (s : ServiceEntry) : String :=
  s.address ++ ":" ++ toString s.port

/-- Embedding of `discoverService` (api-gateway/main.go).  The registry
response (from `consul.Health().Service(serviceName, "", true, nil)`) is an
explicit input: either a transport error or the list of healthy instances. -/
def discoverService (serviceName : String)
    (registry : Except String (List ServiceEntry)) : Except String String :=
  match registry with
  | .error e => .error e
  | .ok services =>
    match services with
    | [] => .error ("no healthy instances of service " ++ serviceName ++ " found")
    | s :: _ => .ok (formatEndpoint s)

/-- `pb.User` as the gateway sees it (practical3 proto). -/
structure User where
  id : String
  name : String
  email : String
deriving Repr, DecidableEq

/-- `pb.Product` as the gateway sees it (practical3 proto).  The Go `Price`
field is a float64; prices are exact decimal literals in this system, so the
embedding carries them as rationals. -/
structure Product where
  id : String
  name : String
  price : ℚ
deriving Repr, DecidableEq

/-- The aggregated value built by `getPurchaseDataHandler`.  The Go struct
holds two pointers (`*pb.User`, `*pb.Product`), each possibly nil; the
embedding keeps that nullability with `Option`. -/
structure UserPurchaseData where
  user : Option User
  product : Option Product
deriving Repr, DecidableEq

/-- Outcome of an HTTP handler: a JSON-encoded body, or `http.Error` with a
status code and a message. -/
inductive HttpResult (α : Type) where
  | ok (body : α)
  | fail (status : Nat) (msg : String)
deriving Repr, DecidableEq

/-- The user branch of the fan-out in `getPurchaseDataHandler`: first
discovery/dial, then the `GetUser` call; it sets exactly one of the two
goroutine-local variables (`user`, `userErr`). -/
def userBranch (discovery : Except String Unit) (call : Except String User) :
    Option User × Option String :=
  match discovery with
  | .error e => (none, some ("failed to discover users-service: " ++ e))
  | .ok _ =>
    match call with
    | .error e => (none, some e)
    | .ok u => (some u, none)

/-- The product branch of the fan-out in `getPurchaseDataHandler`. -/
def productBranch (discovery : Except String Unit) (call : Except String Product) :
    Option Product × Option String :=
  match discovery with
  | .error e => (none, some ("failed to discover products-service: " ++ e))
  | .ok _ =>
    match call with
    | .error e => (none, some e)
    | .ok p => (some p, none)

/-- The combined error message of `getPurchaseDataHandler`: starts from
"Could not retrieve all data" and appends one fragment per present error. -/
def combinedErrMsg (userErr productErr : Option String) : String :=
  let m0 := "Could not retrieve all data"
  let m1 := match userErr with
    | some e => m0 ++ " - User error: " ++ e
    | none => m0
  match productErr with
  | some e => m1 ++ " - Product error: " ++ e
  | none => m1

/-- Embedding of `getPurchaseDataHandler` (api-gateway/main.go): run both
branches, join, and either report the combined failure with status 404
(`http.StatusNotFound`) or encode the aggregated value. -/
def getPurchaseDataHandler (udisc : Except String Unit) (ucall : Except String User)
    (pdisc : Except String Unit) (pcall : Except String Product) :
    HttpResult UserPurchaseData :=
  let ub := userBranch udisc ucall
  let pb := productBranch pdisc pcall
  if ub.2.isSome ∨ pb.2.isSome then
    .fail 404 (combinedErrMsg ub.2 pb.2)
  else
    .ok ⟨ub.1, pb.1⟩

/-- `pb.CreateUserRequest` (practical3 proto). -/
structure CreateUserRequest where
  name : String
  email : String
deriving Repr, DecidableEq

/-- The zero value of `pb.CreateUserRequest`, as left by
`var req pb.CreateUserRequest` when `Decode` fills nothing. -/
def zeroCreateUserRequest : CreateUserRequest := ⟨"", ""⟩

/-- `pb.CreateProductRequest` (practical3 proto). -/
structure CreateProductRequest where
  name : String
  price : ℚ
deriving Repr, DecidableEq

/-- The zero value of `pb.CreateProductRequest`. -/
def zeroCreateProductRequest : CreateProductRequest := ⟨"", 0⟩

/-- Embedding of `createUserHandler` (api-gateway/main.go).  `decoded` is the
request value after `json.NewDecoder(r.Body).Decode(&req)` ran, `decodeErr`
is the error `Decode` returned; the source drops that error on the floor, so
the embedding receives it and ignores it exactly as the code does.  The
backend call is an explicit function input. -/
def createUserHandler (discovery : Except String String)
    (decoded : CreateUserRequest) (decodeErr : Option String)
    (backend : CreateUserRequest → Except String User) : HttpResult User :=
  match discovery with
  | .error e => .fail 503 ("Service discovery failed: " ++ e)
  | .ok _ =>
    match backend decoded with
    | .error e => .fail 500 e
    | .ok u => .ok u

/-- Embedding of `createProductHandler` (api-gateway/main.go); same shape as
`createUserHandler`, decode error equally discarded. -/
def createProductHandler (discovery : Except String String)
    (decoded : CreateProductRequest) (decodeErr : Option String)
    (backend : CreateProductRequest → Except String Product) : HttpResult Product :=
  match discovery with
  | .error e => .fail 503 ("Service discovery failed: " ++ e)
  | .ok _ =>
    match backend decoded with
    | .error e => .fail 500 e
    | .ok p => .ok p

end Practical3

namespace Practical3

/-- GORM errors as the practical3 services see them: the sentinel
`gorm.ErrRecordNotFound` or any other storage fault carrying a message. -/
inductive GormError where
  | recordNotFound
  | fault (msg : String)
deriving Repr, DecidableEq

/-- The users-service GORM row (`User` model in services/users-service). -/
structure UserRow where
  id : Nat
  name : String
  email : String
deriving Repr, DecidableEq

/-- Embedding of the practical3 users-service `GetUser`
(services/users-service/main.go lines 43-49): `s.db.First(&user, req.Id)` is
the explicit `db` input; on any error the method returns `result.Error`
itself, unwrapped and unclassified. -/
def usersServiceGetUser (db : Nat → Except GormError UserRow) (id : Nat) :
    Except GormError User :=
  match db id with
  | .error e => .error e
  | .ok u => .ok ⟨toString u.id, u.name, u.email⟩

/-- A Consul `AgentServiceRegistration` as built by the practical3 services.
The Consul API's optional health-check attachment is kept as an `Option` so
that its absence in this code is visible. -/
structure AgentServiceRegistration where
  regId : String
  name : String
  port : Nat
  address : String
  healthCheck : Option String
deriving Repr, DecidableEq

/-- The registration record built by `registerServiceWithConsul` in
services/users-service/main.go and in the products-service source: ID, Name,
Port, Address and nothing else — no health-check field is set. -/
def mkRegistration (serviceName : String) (servicePort : Nat) (hostname : String) :
    AgentServiceRegistration :=
  { regId := serviceName ++ "-" ++ hostname
    name := serviceName
    port := servicePort
    address := hostname
    healthCheck := none }

/-- Embedding of `registerServiceWithConsul`: consul client construction,
hostname lookup, then `consul.Agent().ServiceRegister(registration)`; any
step's error is returned. -/
def registerServiceWithConsul (serviceName : String) (servicePort : Nat)
    (clientInit : Except String Unit) (hostnameRes : Except String String)
    (agentRegister : AgentServiceRegistration → Except String Unit) :
    Except String AgentServiceRegistration :=
  match clientInit with
  | .error e => .error e
  | .ok _ =>
    match hostnameRes with
    | .error e => .error e
    | .ok hostname =>
      let reg := mkRegistration serviceName servicePort hostname
      match agentRegister reg with
      | .error e => .error e
      | .ok _ => .ok reg

/-- Outcome of a record service's `main`: either serving (carrying the
registration it submitted) or aborted by `log.Fatalf`. -/
inductive StartupResult where
  | serving (reg : AgentServiceRegistration)
  | aborted (msg : String)
deriving Repr, DecidableEq

/-- Embedding of the startup sequence of services/users-service/main.go (and
identically the products-service source): connect to the database, listen,
register with Consul — each failure is `log.Fatalf`, so a failed
registration aborts the process before `s.Serve(lis)` runs. -/
def recordServiceMain (serviceName : String) (servicePort : Nat)
    (dbConnect : Except String Unit) (listen : Except String Unit)
    (clientInit : Except String Unit) (hostnameRes : Except String String)
    (agentRegister : AgentServiceRegistration → Except String Unit) :
    StartupResult :=
  match dbConnect with
  | .error e => .aborted ("Failed to connect to database: " ++ e)
  | .ok _ =>
    match listen with
    | .error e => .aborted ("Failed to listen: " ++ e)
    | .ok _ =>
      match registerServiceWithConsul serviceName servicePort clientInit
          hostnameRes agentRegister with
      | .error e => .aborted ("Failed to register with Consul: " ++ e)
      | .ok reg => .serving reg

end Practical3

namespace Practical6

/-- gRPC status codes used by the practical6 services. -/
inductive Code where
  | okCode
  | notFound
  | invalidArgument
  | internal
deriving Repr, DecidableEq

/-- A gRPC status error: machine-distinguishable code plus reason string. -/
structure GrpcError where
  code : Code
  message : String
deriving Repr, DecidableEq

/-- A menu (catalog) item as served by the menu service. -/
structure MenuItem where
  id : Nat
  name : String
  price : ℚ
deriving Repr, DecidableEq

/-- A user as served by the user service. -/
structure UserRec where
  id : Nat
  name : String
  email : String
deriving Repr, DecidableEq

/-- One `(menuItemId, quantity)` pair of a `CreateOrderRequest`. -/
structure OrderItemReq where
  menuItemId : Nat
  quantity : Int
deriving Repr, DecidableEq

/-- `orderv1.CreateOrderRequest`. -/
structure CreateOrderRequest where
  userId : Nat
  items : List OrderItemReq
deriving Repr, DecidableEq

/-- A persisted `orders` row. -/
structure OrderRow where
  id : Nat
  userId : Nat
  status : String
deriving Repr, DecidableEq

/-- A persisted `order_items` row, holding the snapshotted unit price. -/
structure OrderItemRow where
  rowId : Nat
  orderId : Nat
  menuItemId : Nat
  quantity : Int
  price : ℚ
deriving Repr, DecidableEq

/-- The order service's relational store: the two tables plus the id
sequences. -/
structure OrderStore where
  orders : List OrderRow
  orderItems : List OrderItemRow
  nextOrderId : Nat
  nextItemId : Nat
deriving Repr, DecidableEq

/-- The store before any order was created. -/
def emptyStore : OrderStore := ⟨[], [], 1, 1⟩

/-- The order returned to the caller: generated id, owner, status and the
lines with their snapshotted prices. -/
structure OrderView where
  id : Nat
  userId : Nat
  status : String
  orderItems : List OrderItemRow
deriving Repr, DecidableEq

/-- Modelled from the spec (section 4.4 step 1): a CreateOrder request must
carry a non-empty item list and positive quantities. -/
def wellFormedOrderRequest (req : CreateOrderRequest) : Bool :=
  !req.items.isEmpty && req.items.all (fun it => 0 < it.quantity)

/-- Modelled from the spec (section 4.4 steps 2-4; the order-service
grpc/server.go is absent from the snapshot, only its unit tests are
present): validate every referenced catalog item against the menu
authority, in request order, snapshotting each item's current price; a
missing item fails the whole validation with a reason naming that item id,
as `TestCreateOrder_InvalidMenuItem` observes ("menu item 999 not found"). -/
def validateItems (getMenuItem : Nat → Except GrpcError MenuItem) :
    List OrderItemReq → Except GrpcError (List (OrderItemReq × ℚ))
  | [] => .ok []
  | it :: rest =>
    match getMenuItem it.menuItemId with
    | .error _ =>
      .error ⟨.invalidArgument, "menu item " ++ toString it.menuItemId ++ " not found"⟩
    | .ok item =>
      match validateItems getMenuItem rest with
      | .error e => .error e
      | .ok tail => .ok ((it, item.price) :: tail)

/-- The `order_items` rows for one new order: one row per validated line, in
request order, each carrying the order's id and the snapshotted price. -/
def mkItemRows : Nat → Nat → List (OrderItemReq × ℚ) → List OrderItemRow
  | _, _, [] => []
  | oid, nid, (it, p) :: rest =>
    ⟨nid, oid, it.menuItemId, it.quantity, p⟩ :: mkItemRows oid (nid + 1) rest

/-- Modelled from the spec (section 4.4 step 5 and section 6, storage
interface): one atomic transaction inserting the `orders` row followed by
each `order_items` row.  `failAt = some k` injects a storage fault at the
k-th row insert of that sequence (0 is the order row, j + 1 the j-th line
row); the ACID store then rolls the whole transaction back, so the error
case yields no new state at all. -/
def persistOrder (st : OrderStore) (userId : Nat)
    (vlines : List (OrderItemReq × ℚ)) (failAt : Option Nat) :
    Except String (OrderStore × OrderRow × List OrderItemRow) :=
  let faulted := match failAt with
    | some k => decide (k ≤ vlines.length)
    | none => false
  if faulted then
    .error "store fault during create-order transaction"
  else
    let oid := st.nextOrderId
    let row : OrderRow := ⟨oid, userId, "pending"⟩
    let items := mkItemRows oid st.nextItemId vlines
    .ok (⟨st.orders ++ [row], st.orderItems ++ items,
          oid + 1, st.nextItemId + vlines.length⟩, row, items)

/-- Modelled from the spec (section 4.4; the order-service grpc/server.go is
absent from the snapshot, only its unit tests are present): CreateOrder
validates the request shape, the user reference and every catalog item
reference, then persists the order and its lines in one transaction.
Reference failures surface as InvalidArgument ("user not found" is what
`TestCreateOrder_InvalidUser` observes in the message), a storage failure as
Internal with the "failed to create order" wrap that
`TestCreateOrder_DatabaseError` observes; an error leaves the store
unchanged. -/
def CreateOrder (getUser : Nat → Except GrpcError UserRec)
    (getMenuItem : Nat → Except GrpcError MenuItem)
    (st : OrderStore) (failAt : Option Nat) (req : CreateOrderRequest) :
    OrderStore × Except GrpcError OrderView :=
  if !wellFormedOrderRequest req then
    (st, .error ⟨.invalidArgument, "order needs at least one item with positive quantity"⟩)
  else
    match getUser req.userId with
    | .error e => (st, .error ⟨.invalidArgument, "user not found: " ++ e.message⟩)
    | .ok _ =>
      match validateItems getMenuItem req.items with
      | .error e => (st, .error e)
      | .ok vlines =>
        match persistOrder st req.userId vlines failAt with
        | .error m => (st, .error ⟨.internal, "failed to create order: " ++ m⟩)
        | .ok (st2, row, items) => (st2, .ok ⟨row.id, row.userId, row.status, items⟩)

/-- Modelled from the spec (sections 4.3 and 6; behavior also fixed by the
`TestGetOrder` unit test in the snapshot): GetOrder reads one order row and
its lines from the store; an absent id fails with NotFound. -/
def GetOrder (st : OrderStore) (id : Nat) : Except GrpcError OrderView :=
  match st.orders.find? (fun r => r.id == id) with
  | none => .error ⟨.notFound, "order not found"⟩
  | some row =>
    .ok ⟨row.id, row.userId, row.status,
         st.orderItems.filter (fun it => it.orderId == row.id)⟩

/-- The menu authority's table, for the price-snapshot scenario. -/
def menuGet (ms : List MenuItem) (id : Nat) : Except GrpcError MenuItem :=
  match ms.find? (fun it => it.id == id) with
  | none => .error ⟨.notFound, "menu item not found"⟩
  | some it => .ok it

/-- A later price change at the menu authority: the item keeps its identity,
only its price moves. -/
def menuUpdatePrice (ms : List MenuItem) (id : Nat) (p : ℚ) : List MenuItem :=
  ms.map (fun it => if it.id == id then { it with price := p } else it)

/-- Modelled from the spec (section 4.3; the practical6 user-service
grpc/server.go is absent from the snapshot, behavior fixed by its `TestGetUser`
unit test): GetUser maps the store's record-not-found to NotFound and wraps
any other storage fault as Internal. -/
def userServiceGetUser (db : Nat → Except Practical3.GormError UserRec) (id : Nat) :
    Except GrpcError UserRec :=
  match db id with
  | .error .recordNotFound => .error ⟨.notFound, "user not found"⟩
  | .error (.fault m) => .error ⟨.internal, "failed to get user: " ++ m⟩
  | .ok u => .ok u

end Practical6

open Practical3 Practical6 in
/-- C6: `discoverService` fails with the no-healthy-instances error carrying
the logical service name when the registry reports no healthy instances, and
when the registry reports one or more healthy instances it returns the
endpoint of the first instance in the registry's returned order — a fixed,
deterministic choice for a given registry response. -/
theorem C6_discoverService_resolution (name : String) (s : ServiceEntry)
    (rest : List ServiceEntry) :
    discoverService name (.ok []) =
      .error ("no healthy instances of service " ++ name ++ " found") ∧
    discoverService name (.ok (s :: rest)) = .ok (formatEndpoint s) :=
  ⟨rfl, rfl⟩

open Practical3 in
/-- C4: the aggregate handler's result is exactly one of two shapes.  When
every sub-request succeeds it returns a success carrying exactly one entry
per sub-request, both populated; any success value it returns has no missing
(nil) entry; and unless everything succeeded it returns the 404 itemized
failure — never a half-populated success. -/
theorem C4_aggregate_result_shape (udisc pdisc : Except String Unit)
    (ucall : Except String User) (pcall : Except String Product) :
    (∀ u p, udisc = .ok () → pdisc = .ok () → ucall = .ok u → pcall = .ok p →
        getPurchaseDataHandler udisc ucall pdisc pcall = .ok ⟨some u, some p⟩) ∧
    (∀ d, getPurchaseDataHandler udisc ucall pdisc pcall = .ok d →
        (∃ u, d.user = some u) ∧ ∃ p, d.product = some p) ∧
    ((udisc = .ok () ∧ pdisc = .ok () ∧ (∃ u, ucall = .ok u) ∧ (∃ p, pcall = .ok p)) ∨
        ∃ msg, getPurchaseDataHandler udisc ucall pdisc pcall = .fail 404 msg) := by
  obtain eu | u := ucall <;> obtain ep | p := pcall <;>
    obtain du | ⟨⟩ := udisc <;> obtain dp | ⟨⟩ := pdisc <;>
      simp [getPurchaseDataHandler, userBranch, productBranch]

/-- C4 witness: both sub-requests succeed on a concrete input and the
handler returns the fully populated success value. -/
theorem C4_witness :
    Practical3.getPurchaseDataHandler (.ok ()) (.ok ⟨"1", "Jane Doe", "jane@example.com"⟩)
      (.ok ()) (.ok ⟨"2", "Latte", 3⟩)
      = .ok ⟨some ⟨"1", "Jane Doe", "jane@example.com"⟩, some ⟨"2", "Latte", 3⟩⟩ :=
  (C4_aggregate_result_shape _ _ _ _).1 _ _ rfl rfl rfl rfl

open Practical3 in
/-- C10: a POST body that fails to decode is not rejected by the gateway:
the handler's outcome is identical with and without a decode error, and on a
fully failed decode the backend create call is still issued with the
all-zero request, its result becoming the response. -/
theorem C10_decode_error_discarded :
    (∀ disc dec e backend,
        createUserHandler disc dec (some e) backend = createUserHandler disc dec none backend) ∧
    (∀ addr e backend u, backend zeroCreateUserRequest = .ok u →
        createUserHandler (.ok addr) zeroCreateUserRequest (some e) backend = .ok u) ∧
    (∀ disc dec e backend,
        createProductHandler disc dec (some e) backend = createProductHandler disc dec none backend) ∧
    (∀ addr e backend p, backend zeroCreateProductRequest = .ok p →
        createProductHandler (.ok addr) zeroCreateProductRequest (some e) backend = .ok p) := by
  refine ⟨fun _ _ _ _ => rfl, ?_, fun _ _ _ _ => rfl, ?_⟩ <;>
    · intro addr e backend x h
      simp [createUserHandler, createProductHandler, h]

/-- C10 witness: a concrete malformed-JSON create-user request is forwarded
to the backend with zero-valued fields and the backend's answer is
returned. -/
theorem C10_witness :
    Practical3.createUserHandler (.ok "10.0.0.3:50051") Practical3.zeroCreateUserRequest
      (some "invalid character at offset 0")
      (fun r => .ok ⟨"7", r.name, r.email⟩) = .ok ⟨"7", "", ""⟩ :=
  C10_decode_error_discarded.2.1 _ _ _ _ rfl

open Practical3 Practical6 in
/-- C7 counterexample: the practical3 users-service `GetUser` returns
`result.Error` from the store directly, so at these concrete inputs the
caller receives the raw storage fault verbatim, and an absent id yields the
store's record-not-found sentinel rather than a classified NotFound status —
refuting the claim that every Backend Record Service wraps storage faults as
Internal and never leaks them. -/
theorem C7_counterexample_raw_error_leak :
    usersServiceGetUser
        (fun _ => .error (.fault "dial tcp 10.0.0.5:5432: connection refused")) 7
      = .error (.fault "dial tcp 10.0.0.5:5432: connection refused") ∧
    usersServiceGetUser (fun _ => .error .recordNotFound) 9
      = .error .recordNotFound :=
  ⟨rfl, rfl⟩

open Practical3 Practical6 in
/-- C7 amended: the practical6 user-service `GetUser` (per its unit tests)
classifies an absent id as NotFound and wraps any other storage fault as
Internal with a message that differs from the raw fault; the practical3
users-service instead propagates the store's error to its caller verbatim,
with no classification. -/
theorem C7_get_error_classification
    (dbp6 : Nat → Except GormError UserRec)
    (dbp3 : Nat → Except GormError UserRow) (id : Nat) :
    (dbp6 id = .error .recordNotFound →
        userServiceGetUser dbp6 id = .error ⟨.notFound, "user not found"⟩) ∧
    (∀ m, dbp6 id = .error (.fault m) →
        userServiceGetUser dbp6 id = .error ⟨.internal, "failed to get user: " ++ m⟩ ∧
        "failed to get user: " ++ m ≠ m) ∧
    (∀ e, dbp3 id = .error e → usersServiceGetUser dbp3 id = .error e) := by
  refine ⟨fun h => by simp [userServiceGetUser, h], fun m h => ⟨by simp [userServiceGetUser, h], ?_⟩,
    fun e h => by simp [usersServiceGetUser, h]⟩
  intro hEq
  have hlen := congrArg String.length hEq
  rw [String.length_append] at hlen
  have hpos : 0 < ("failed to get user: " : String).length := by decide
  omega

/-- C7 witness: the amended behavior at concrete inputs — NotFound for an
absent id, Internal with a wrapped (non-verbatim) message for a storage
fault, and verbatim propagation by the practical3 service. -/
theorem C7_witness :
    (Practical6.userServiceGetUser (fun _ => .error .recordNotFound) 9999
        = .error ⟨.notFound, "user not found"⟩) ∧
    (Practical6.userServiceGetUser (fun _ => .error (.fault "invalid db")) 1
        = .error ⟨.internal, "failed to get user: invalid db"⟩ ∧
      "failed to get user: " ++ "invalid db" ≠ "invalid db") ∧
    Practical3.usersServiceGetUser (fun _ => .error (.fault "invalid db")) 1
        = .error (.fault "invalid db") :=
  ⟨(C7_get_error_classification (fun _ => .error .recordNotFound) (fun _ => .error (.fault "invalid db")) 9999).1 rfl,
   (C7_get_error_classification (fun _ => .error (.fault "invalid db")) (fun _ => .error (.fault "invalid db")) 1).2.1 _ rfl,
   (C7_get_error_classification (fun _ => .error (.fault "invalid db")) (fun _ => .error (.fault "invalid db")) 1).2.2 _ rfl⟩

open Practical3 in
/-- C9 counterexample: with every startup step succeeding at concrete
inputs, the users-service reaches serving state having submitted a
registration whose health-check attachment is `none` — the registration
carries no means for the registry to probe liveness, refuting that part of
the claim. -/
theorem C9_counterexample_no_health_probe :
    recordServiceMain "users-service" 50051 (.ok ()) (.ok ()) (.ok ())
        (.ok "cafe-host-1") (fun _ => .ok ())
      = .serving (mkRegistration "users-service" 50051 "cafe-host-1") ∧
    (mkRegistration "users-service" 50051 "cafe-host-1").healthCheck = none :=
  ⟨rfl, rfl⟩

open Practical3 in
/-- C9 amended: on startup a Backend Record Service registers its logical
name and network location (hostname and port) with the registry, and a
failed registration aborts process startup before serving; however the
submitted registration contains no health-check probe. -/
theorem C9_startup_registration_fatal (serviceName hostname : String) (servicePort : Nat)
    (agentRegister : AgentServiceRegistration → Except String Unit) :
    (mkRegistration serviceName servicePort hostname).name = serviceName ∧
    (mkRegistration serviceName servicePort hostname).address = hostname ∧
    (mkRegistration serviceName servicePort hostname).port = servicePort ∧
    (mkRegistration serviceName servicePort hostname).healthCheck = none ∧
    (∀ e, agentRegister (mkRegistration serviceName servicePort hostname) = .error e →
        recordServiceMain serviceName servicePort (.ok ()) (.ok ()) (.ok ())
            (.ok hostname) agentRegister
          = .aborted ("Failed to register with Consul: " ++ e)) ∧
    (agentRegister (mkRegistration serviceName servicePort hostname) = .ok () →
        recordServiceMain serviceName servicePort (.ok ()) (.ok ()) (.ok ())
            (.ok hostname) agentRegister
          = .serving (mkRegistration serviceName servicePort hostname)) := by
  refine ⟨rfl, rfl, rfl, rfl, fun e h => ?_, fun h => ?_⟩ <;>
    simp [recordServiceMain, registerServiceWithConsul, h]

/-- C9 witness: a concrete failed registration aborts startup and the
process never reaches serving state. -/
theorem C9_witness :
    Practical3.recordServiceMain "products-service" 50052 (.ok ()) (.ok ()) (.ok ())
        (.ok "host-2") (fun _ => .error "connection refused")
      = .aborted ("Failed to register with Consul: " ++ "connection refused") :=
  (C9_startup_registration_fatal "products-service" "host-2" 50052
    (fun _ => .error "connection refused")).2.2.2.2.1 _ rfl

/-- Two strings with the same character data are equal. -/
theorem str_data_ext (a b : String) (h : a.data = b.data) : a = b := by
  cases a; cases b; exact congrArg String.mk h

open Practical3 in
/-- The combined failure message of the aggregate handler contains the tag
and reason of each present error, and is built from nothing but the base
text and the present errors. -/
theorem combinedErrMsg_enum (ue pe : Option String) :
    (∀ eu, ue = some eu → ∃ a b, combinedErrMsg ue pe = a ++ ("User error: " ++ eu) ++ b) ∧
    (∀ ep, pe = some ep → ∃ a b, combinedErrMsg ue pe = a ++ ("Product error: " ++ ep) ++ b) ∧
    (ue = none → ∀ ep, pe = some ep →
      combinedErrMsg ue pe = "Could not retrieve all data - Product error: " ++ ep) ∧
    (pe = none → ∀ eu, ue = some eu →
      combinedErrMsg ue pe = "Could not retrieve all data - User error: " ++ eu) := by
  obtain _ | eu := ue <;> obtain _ | ep := pe
  · simp
  · refine ⟨by simp, ?_, ?_, by simp⟩
    · intro ep2 h
      obtain rfl : ep = ep2 := by simpa using h
      refine ⟨"Could not retrieve all data - ", "", ?_⟩
      apply str_data_ext
      simp only [combinedErrMsg, String.data_append, List.append_assoc, List.append_nil]
      rfl
    · intro _ ep2 h
      obtain rfl : ep = ep2 := by simpa using h
      rfl
  · refine ⟨?_, by simp, by simp, ?_⟩
    · intro eu2 h
      obtain rfl : eu = eu2 := by simpa using h
      refine ⟨"Could not retrieve all data - ", "", ?_⟩
      apply str_data_ext
      simp only [combinedErrMsg, String.data_append, List.append_assoc, List.append_nil]
      rfl
    · intro _ eu2 h
      obtain rfl : eu = eu2 := by simpa using h
      rfl
  · refine ⟨?_, ?_, by simp, by simp⟩
    · intro eu2 h
      obtain rfl : eu = eu2 := by simpa using h
      refine ⟨"Could not retrieve all data - ", " - Product error: " ++ ep, ?_⟩
      apply str_data_ext
      simp only [combinedErrMsg, String.data_append, List.append_assoc, List.append_nil]
      rfl
    · intro ep2 h
      obtain rfl : ep = ep2 := by simpa using h
      refine ⟨"Could not retrieve all data - User error: " ++ eu ++ " - ", "", ?_⟩
      apply str_data_ext
      simp only [combinedErrMsg, String.data_append, List.append_assoc, List.append_nil]
      rfl

open Practical3 in
/-- C3: whenever at least one fan-out sub-request fails, the aggregate
handler returns a single combined 404 failure whose description contains
the tag and reason of every failing sub-request; a sub-request without an
error contributes nothing to the description — if only one branch failed,
the message is exactly the base text plus that one branch's fragment. -/
theorem C3_aggregate_failure_enumeration (udisc pdisc : Except String Unit)
    (ucall : Except String User) (pcall : Except String Product)
    (h : (userBranch udisc ucall).2.isSome ∨ (productBranch pdisc pcall).2.isSome) :
    ∃ msg, getPurchaseDataHandler udisc ucall pdisc pcall = .fail 404 msg ∧
      (∀ eu, (userBranch udisc ucall).2 = some eu →
          ∃ a b, msg = a ++ ("User error: " ++ eu) ++ b) ∧
      (∀ ep, (productBranch pdisc pcall).2 = some ep →
          ∃ a b, msg = a ++ ("Product error: " ++ ep) ++ b) ∧
      ((userBranch udisc ucall).2 = none →
        ∀ ep, (productBranch pdisc pcall).2 = some ep →
          msg = "Could not retrieve all data - Product error: " ++ ep) ∧
      ((productBranch pdisc pcall).2 = none →
        ∀ eu, (userBranch udisc ucall).2 = some eu →
          msg = "Could not retrieve all data - User error: " ++ eu) := by
  refine ⟨combinedErrMsg (userBranch udisc ucall).2 (productBranch pdisc pcall).2, ?_,
    (combinedErrMsg_enum _ _).1, (combinedErrMsg_enum _ _).2.1,
    (combinedErrMsg_enum _ _).2.2.1, (combinedErrMsg_enum _ _).2.2.2⟩
  simp only [getPurchaseDataHandler]
  exact if_pos h

/-- C3 witness: only the product sub-request fails on a concrete input; the
failure names exactly that sub-request with its reason, and the succeeded
user sub-request contributes nothing. -/
theorem C3_witness :
    ∃ msg, Practical3.getPurchaseDataHandler (.ok ()) (.ok ⟨"1", "Jane Doe", "jane@example.com"⟩)
        (.ok ()) (.error "rpc error: product 42 not found") = .fail 404 msg ∧
      (∀ eu, (Practical3.userBranch (.ok ())
          (.ok ⟨"1", "Jane Doe", "jane@example.com"⟩)).2 = some eu →
          ∃ a b, msg = a ++ ("User error: " ++ eu) ++ b) ∧
      (∀ ep, (Practical3.productBranch (.ok ())
          (.error "rpc error: product 42 not found")).2 = some ep →
          ∃ a b, msg = a ++ ("Product error: " ++ ep) ++ b) ∧
      ((Practical3.userBranch (.ok ()) (.ok ⟨"1", "Jane Doe", "jane@example.com"⟩)).2 = none →
        ∀ ep, (Practical3.productBranch (.ok ())
            (.error "rpc error: product 42 not found")).2 = some ep →
          msg = "Could not retrieve all data - Product error: " ++ ep) ∧
      ((Practical3.productBranch (.ok ()) (.error "rpc error: product 42 not found")).2 = none →
        ∀ eu, (Practical3.userBranch (.ok ())
            (.ok ⟨"1", "Jane Doe", "jane@example.com"⟩)).2 = some eu →
          msg = "Could not retrieve all data - User error: " ++ eu) :=
  C3_aggregate_failure_enumeration _ _ _ _ (Or.inr rfl)

namespace Practical6

/-- If some requested item is missing from the catalog, reference validation
fails with InvalidArgument naming a failing item id. -/
theorem validateItems_err (g : Nat → Except GrpcError MenuItem)
    (items : List OrderItemReq)
    (h : ∃ it ∈ items, ∃ e, g it.menuItemId = .error e) :
    ∃ badId, (∃ it ∈ items, it.menuItemId = badId) ∧ (∃ e, g badId = .error e) ∧
      validateItems g items =
        .error ⟨.invalidArgument, "menu item " ++ toString badId ++ " not found"⟩ := by
  induction items with
  | nil => simp at h
  | cons it rest ih =>
    cases hg : g it.menuItemId with
    | error e =>
      refine ⟨it.menuItemId, ⟨it, by simp⟩, ⟨e, hg⟩, ?_⟩
      simp [validateItems, hg]
    | ok item =>
      have hrest : ∃ it2 ∈ rest, ∃ e, g it2.menuItemId = .error e := by
        obtain ⟨it2, hmem, e, he⟩ := h
        rcases List.mem_cons.mp hmem with rfl | hmem2
        · rw [hg] at he; cases he
        · exact ⟨it2, hmem2, e, he⟩
      obtain ⟨badId, hb1, hb2, hb3⟩ := ih hrest
      refine ⟨badId, ?_, hb2, ?_⟩
      · obtain ⟨it2, hm, he⟩ := hb1
        exact ⟨it2, List.mem_cons_of_mem _ hm, he⟩
      · simp [validateItems, hg, hb3]

/-- Successful reference validation yields one line per requested item, in
request order, each carrying the catalog item's price at validation time. -/
theorem validateItems_ok (g : Nat → Except GrpcError MenuItem)
    (items : List OrderItemReq) (vlines : List (OrderItemReq × ℚ))
    (h : validateItems g items = .ok vlines) :
    vlines.length = items.length ∧
    ∀ j (hj : j < items.length),
      ∃ item, g ((items.get ⟨j, hj⟩).menuItemId) = .ok item ∧
        ∃ hj2 : j < vlines.length,
          vlines.get ⟨j, hj2⟩ = (items.get ⟨j, hj⟩, item.price) := by
  induction items generalizing vlines with
  | nil =>
    simp [validateItems] at h
    subst h
    exact ⟨rfl, fun j hj => absurd hj (by simp)⟩
  | cons it rest ih =>
    cases hg : g it.menuItemId with
    | error e => simp [validateItems, hg] at h
    | ok item =>
      cases hrest : validateItems g rest with
      | error e => simp [validateItems, hg, hrest] at h
      | ok tail =>
        have hv : vlines = (it, item.price) :: tail := by
          simp [validateItems, hg, hrest] at h
          exact h.symm
        subst hv
        obtain ⟨hlen, hidx⟩ := ih tail hrest
        refine ⟨by simp [hlen], ?_⟩
        intro j hj
        cases j with
        | zero => exact ⟨item, hg, Nat.succ_pos _, rfl⟩
        | succ n =>
          have hn : n < rest.length := by simpa using hj
          obtain ⟨item2, hgi, hj2, hvv⟩ := hidx n hn
          exact ⟨item2, hgi, Nat.succ_lt_succ hj2, hvv⟩

/-- `mkItemRows` mints exactly one row per validated line. -/
theorem mkItemRows_length (oid nid : Nat) (vl : List (OrderItemReq × ℚ)) :
    (mkItemRows oid nid vl).length = vl.length := by
  induction vl generalizing nid with
  | nil => rfl
  | cons hd tl ih =>
    obtain ⟨itq, p⟩ := hd
    simp [mkItemRows, ih]

/-- The j-th minted row copies the j-th validated line, in order. -/
theorem mkItemRows_get (oid nid : Nat) (vl : List (OrderItemReq × ℚ))
    (j : Nat) (hj : j < vl.length) :
    ∃ hj2 : j < (mkItemRows oid nid vl).length,
      (mkItemRows oid nid vl).get ⟨j, hj2⟩ =
        ⟨nid + j, oid, (vl.get ⟨j, hj⟩).1.menuItemId,
          (vl.get ⟨j, hj⟩).1.quantity, (vl.get ⟨j, hj⟩).2⟩ := by
  induction vl generalizing nid j with
  | nil => cases hj
  | cons hd tl ih =>
    obtain ⟨itq, p⟩ := hd
    cases j with
    | zero =>
      refine ⟨by simp [mkItemRows], ?_⟩
      simp [mkItemRows]
    | succ n =>
      have hn : n < tl.length := by simpa using hj
      obtain ⟨h2, he⟩ := ih (nid + 1) n hn
      refine ⟨by simpa [mkItemRows] using Nat.succ_lt_succ h2, ?_⟩
      have harith : nid + 1 + n = nid + (n + 1) := by omega
      simpa [mkItemRows, harith] using he

/-- The updated menu table finds the same item at the looked-up id, with
only the price rewritten. -/
theorem find_menuUpdatePrice (ms : List MenuItem) (itemId : Nat) (p : ℚ) :
    (menuUpdatePrice ms itemId p).find? (fun it => it.id == itemId) =
      (ms.find? (fun it => it.id == itemId)).map
        (fun it => if it.id == itemId then { it with price := p } else it) := by
  unfold menuUpdatePrice
  rw [List.find?_map]
  have hcomp : ((fun it : MenuItem => it.id == itemId) ∘
      (fun it => if (it.id == itemId) = true then { it with price := p } else it)) =
      (fun it : MenuItem => it.id == itemId) := by
    funext it
    by_cases hb : it.id = itemId <;> simp [Function.comp, hb]
  rw [hcomp]

/-- Updating a price at the menu authority changes exactly that item's
price as later lookups observe it. -/
theorem menuGet_update (ms : List MenuItem) (itemId : Nat) (item : MenuItem) (p : ℚ)
    (hm : menuGet ms itemId = .ok item) :
    menuGet (menuUpdatePrice ms itemId p) itemId = .ok { item with price := p } := by
  unfold menuGet at hm ⊢
  cases hf : ms.find? (fun it => it.id == itemId) with
  | none => rw [hf] at hm; cases hm
  | some it0 =>
    rw [hf] at hm
    obtain rfl : it0 = item := by simpa using hm
    have hpred := List.find?_some hf
    rw [find_menuUpdatePrice, hf]
    simp at hpred
    simp [hpred]

end Practical6

open Practical6 in
/-- C1: when reference validation has passed and the store faults at any row
insert of the create-order transaction (the order row or any line row), the
whole transaction rolls back: the operation fails with an Internal error and
the store is exactly as before — no order row and no line rows persisted. -/
theorem C1_create_order_rollback_atomic
    (getUser : Nat → Except GrpcError UserRec)
    (getMenuItem : Nat → Except GrpcError MenuItem)
    (st : OrderStore) (req : CreateOrderRequest) (u : UserRec)
    (vlines : List (OrderItemReq × ℚ)) (k : Nat)
    (hw : wellFormedOrderRequest req = true)
    (hu : getUser req.userId = .ok u)
    (hv : validateItems getMenuItem req.items = .ok vlines)
    (hk : k ≤ vlines.length) :
    CreateOrder getUser getMenuItem st (some k) req =
      (st, .error ⟨.internal,
        "failed to create order: store fault during create-order transaction"⟩) ∧
    (CreateOrder getUser getMenuItem st (some k) req).1.orders = st.orders ∧
    (CreateOrder getUser getMenuItem st (some k) req).1.orderItems = st.orderItems := by
  have hmain : CreateOrder getUser getMenuItem st (some k) req =
      (st, .error ⟨.internal,
        "failed to create order: store fault during create-order transaction"⟩) := by
    simp [CreateOrder, hw, hu, hv, persistOrder, hk]
  exact ⟨hmain, by rw [hmain], by rw [hmain]⟩

/-- C1 witness: the store faults while inserting line 2 of 2; the operation
fails Internal, the store is left exactly empty, and a subsequent `GetOrder`
observes the rollback with NotFound. -/
theorem C1_witness :
    (Practical6.CreateOrder
        (fun i => if i == 1 then .ok ⟨1, "Test User", "test@example.com"⟩
          else .error ⟨.notFound, "user not found"⟩)
        (Practical6.menuGet [⟨1, "Coffee", 2.5⟩, ⟨2, "Tea", 2.0⟩])
        Practical6.emptyStore (some 2) ⟨1, [⟨1, 2⟩, ⟨2, 1⟩]⟩ =
      (Practical6.emptyStore, .error ⟨.internal,
        "failed to create order: store fault during create-order transaction"⟩) ∧
      (Practical6.CreateOrder
        (fun i => if i == 1 then .ok ⟨1, "Test User", "test@example.com"⟩
          else .error ⟨.notFound, "user not found"⟩)
        (Practical6.menuGet [⟨1, "Coffee", 2.5⟩, ⟨2, "Tea", 2.0⟩])
        Practical6.emptyStore (some 2) ⟨1, [⟨1, 2⟩, ⟨2, 1⟩]⟩).1.orders =
          Practical6.emptyStore.orders ∧
      (Practical6.CreateOrder
        (fun i => if i == 1 then .ok ⟨1, "Test User", "test@example.com"⟩
          else .error ⟨.notFound, "user not found"⟩)
        (Practical6.menuGet [⟨1, "Coffee", 2.5⟩, ⟨2, "Tea", 2.0⟩])
        Practical6.emptyStore (some 2) ⟨1, [⟨1, 2⟩, ⟨2, 1⟩]⟩).1.orderItems =
          Practical6.emptyStore.orderItems) ∧
    Practical6.GetOrder Practical6.emptyStore 1 = .error ⟨.notFound, "order not found"⟩ :=
  ⟨C1_create_order_rollback_atomic _ _ _ _ _ [(⟨1, 2⟩, 2.5), (⟨2, 1⟩, 2.0)] 2
      rfl rfl rfl (by decide), rfl⟩

open Practical6 in
/-- C5: with a well-formed request, a missing user reference fails the
operation with InvalidArgument and a reason naming the missing user
reference, and a missing catalog item reference fails with InvalidArgument
and a reason naming the specific missing item id; neither case is Internal
and neither touches the store. -/
theorem C5_reference_errors_invalid_argument
    (getUser : Nat → Except GrpcError UserRec)
    (getMenuItem : Nat → Except GrpcError MenuItem)
    (st : OrderStore) (failAt : Option Nat) (req : CreateOrderRequest)
    (hw : wellFormedOrderRequest req = true) :
    (∀ e, getUser req.userId = .error e →
        CreateOrder getUser getMenuItem st failAt req =
          (st, .error ⟨.invalidArgument, "user not found: " ++ e.message⟩)) ∧
    (∀ u, getUser req.userId = .ok u →
      (∃ it ∈ req.items, ∃ e, getMenuItem it.menuItemId = .error e) →
        ∃ badId, (∃ it ∈ req.items, it.menuItemId = badId) ∧
          (∃ e, getMenuItem badId = .error e) ∧
          CreateOrder getUser getMenuItem st failAt req =
            (st, .error ⟨.invalidArgument,
              "menu item " ++ toString badId ++ " not found"⟩)) := by
  constructor
  · intro e he
    simp [CreateOrder, hw, he]
  · intro u hu hex
    obtain ⟨badId, h1, h2, h3⟩ := validateItems_err getMenuItem req.items hex
    exact ⟨badId, h1, h2, by simp [CreateOrder, hw, hu, h3]⟩

/-- C5 witness: user 999 does not exist — InvalidArgument naming the user;
and with a valid user, menu item 999 does not exist — InvalidArgument with
reason "menu item 999 not found". -/
theorem C5_witness :
    Practical6.CreateOrder (fun _ => .error ⟨.notFound, "user not found"⟩)
        (Practical6.menuGet [⟨1, "Coffee", 2.5⟩]) Practical6.emptyStore none
        ⟨999, [⟨1, 1⟩]⟩ =
      (Practical6.emptyStore,
        .error ⟨.invalidArgument, "user not found: " ++ "user not found"⟩) ∧
    ∃ badId, (∃ it ∈ ([⟨999, 1⟩] : List Practical6.OrderItemReq), it.menuItemId = badId) ∧
      (∃ e, Practical6.menuGet [⟨1, "Coffee", 2.5⟩] badId = .error e) ∧
      Practical6.CreateOrder (fun _ => .ok ⟨1, "Test User", "test@example.com"⟩)
          (Practical6.menuGet [⟨1, "Coffee", 2.5⟩]) Practical6.emptyStore none
          ⟨1, [⟨999, 1⟩]⟩ =
        (Practical6.emptyStore,
          .error ⟨.invalidArgument, "menu item " ++ toString badId ++ " not found"⟩) :=
  ⟨(C5_reference_errors_invalid_argument (fun _ => .error ⟨.notFound, "user not found"⟩)
      (Practical6.menuGet [⟨1, "Coffee", 2.5⟩]) Practical6.emptyStore none
      ⟨999, [⟨1, 1⟩]⟩ rfl).1 _ rfl,
   (C5_reference_errors_invalid_argument (fun _ => .ok ⟨1, "Test User", "test@example.com"⟩)
      (Practical6.menuGet [⟨1, "Coffee", 2.5⟩]) Practical6.emptyStore none
      ⟨1, [⟨999, 1⟩]⟩ rfl).2 _ rfl ⟨⟨999, 1⟩, by simp, ⟨⟨.notFound, "menu item not found"⟩, rfl⟩⟩⟩

open Practical6 in
/-- C2: a successfully created order stores each line's unit price as the
catalog item's price read at validation time; afterwards the menu authority
can change that item's price (the changed price is what new lookups see),
yet reading the order back from the store still yields the original
snapshotted price — the stored value never changes. -/
theorem C2_price_snapshot_immutable (getUser : Nat → Except GrpcError UserRec)
    (ms : List MenuItem) (uid itemId : Nat) (q : Int) (item : MenuItem)
    (u : UserRec) (pNew : ℚ)
    (hq : 0 < q) (hu : getUser uid = .ok u) (hm : menuGet ms itemId = .ok item) :
    (CreateOrder getUser (menuGet ms) emptyStore none ⟨uid, [⟨itemId, q⟩]⟩).2 =
        .ok ⟨1, uid, "pending", [⟨1, 1, itemId, q, item.price⟩]⟩ ∧
    menuGet (menuUpdatePrice ms itemId pNew) itemId = .ok { item with price := pNew } ∧
    GetOrder (CreateOrder getUser (menuGet ms) emptyStore none ⟨uid, [⟨itemId, q⟩]⟩).1 1 =
        .ok ⟨1, uid, "pending", [⟨1, 1, itemId, q, item.price⟩]⟩ := by
  have hrun : CreateOrder getUser (menuGet ms) emptyStore none ⟨uid, [⟨itemId, q⟩]⟩ =
      (⟨[⟨1, uid, "pending"⟩], [⟨1, 1, itemId, q, item.price⟩], 2, 2⟩,
        .ok ⟨1, uid, "pending", [⟨1, 1, itemId, q, item.price⟩]⟩) := by
    simp [CreateOrder, wellFormedOrderRequest, hq, hu, validateItems, hm, persistOrder,
      emptyStore, mkItemRows]
  refine ⟨by rw [hrun], menuGet_update ms itemId item pNew hm, ?_⟩
  rw [hrun]
  simp [GetOrder, List.find?_cons, List.filter]

/-- C2 witness: order a Special at price 5.99, raise its price to 7.49, and
the order read back still shows 5.99 while the menu shows 7.49. -/
theorem C2_witness :
    (Practical6.CreateOrder (fun _ => .ok ⟨1, "Test User", "test@example.com"⟩)
        (Practical6.menuGet [⟨1, "Special", 5.99⟩]) Practical6.emptyStore none
        ⟨1, [⟨1, 1⟩]⟩).2 =
      .ok ⟨1, 1, "pending", [⟨1, 1, 1, 1, (⟨1, "Special", (5.99 : ℚ)⟩ : Practical6.MenuItem).price⟩]⟩ ∧
    Practical6.menuGet (Practical6.menuUpdatePrice [⟨1, "Special", 5.99⟩] 1 7.49) 1 =
      .ok { (⟨1, "Special", (5.99 : ℚ)⟩ : Practical6.MenuItem) with price := (7.49 : ℚ) } ∧
    Practical6.GetOrder
        (Practical6.CreateOrder (fun _ => .ok ⟨1, "Test User", "test@example.com"⟩)
          (Practical6.menuGet [⟨1, "Special", 5.99⟩]) Practical6.emptyStore none
          ⟨1, [⟨1, 1⟩]⟩).1 1 =
      .ok ⟨1, 1, "pending", [⟨1, 1, 1, 1, (⟨1, "Special", (5.99 : ℚ)⟩ : Practical6.MenuItem).price⟩]⟩ :=
  C2_price_snapshot_immutable (fun _ => .ok ⟨1, "Test User", "test@example.com"⟩)
    [⟨1, "Special", 5.99⟩] 1 1 1 ⟨1, "Special", 5.99⟩ ⟨1, "Test User", "test@example.com"⟩
    7.49 (by decide) rfl rfl

open Practical6 in
/-- C8: on a successful CreateOrder the response's line items follow the
caller's request order position by position — the j-th line carries the j-th
requested item id and quantity, with the unit price read for that item at
validation time. -/
theorem C8_lines_follow_request_order
    (getUser : Nat → Except GrpcError UserRec)
    (getMenuItem : Nat → Except GrpcError MenuItem)
    (st : OrderStore) (req : CreateOrderRequest) (u : UserRec)
    (vlines : List (OrderItemReq × ℚ))
    (hw : wellFormedOrderRequest req = true)
    (hu : getUser req.userId = .ok u)
    (hv : validateItems getMenuItem req.items = .ok vlines) :
    ∃ view, (CreateOrder getUser getMenuItem st none req).2 = .ok view ∧
      view.orderItems.length = req.items.length ∧
      ∀ j (hj : j < req.items.length),
        ∃ item, getMenuItem ((req.items.get ⟨j, hj⟩).menuItemId) = .ok item ∧
          ∃ hj2 : j < view.orderItems.length,
            (view.orderItems.get ⟨j, hj2⟩).menuItemId =
                (req.items.get ⟨j, hj⟩).menuItemId ∧
            (view.orderItems.get ⟨j, hj2⟩).quantity =
                (req.items.get ⟨j, hj⟩).quantity ∧
            (view.orderItems.get ⟨j, hj2⟩).price = item.price := by
  obtain ⟨hlen, hidx⟩ := validateItems_ok getMenuItem req.items vlines hv
  refine ⟨⟨st.nextOrderId, req.userId, "pending",
      mkItemRows st.nextOrderId st.nextItemId vlines⟩, ?_, ?_, ?_⟩
  · simp [CreateOrder, hw, hu, hv, persistOrder]
  · simp [mkItemRows_length, hlen]
  · intro j hj
    obtain ⟨item, hgi, hj2, hvv⟩ := hidx j hj
    obtain ⟨hj3, hrow⟩ := mkItemRows_get st.nextOrderId st.nextItemId vlines j hj2
    refine ⟨item, hgi, hj3, ?_, ?_, ?_⟩ <;> simp only [hrow, hvv]

/-- C8 witness: the spec's concrete scenario — items (1, qty 2) then
(2, qty 1) at prices 2.50 and 2.00 come back in exactly that order. -/
theorem C8_witness :
    ∃ view, (Practical6.CreateOrder
        (fun _ => .ok ⟨1, "Test User", "test@example.com"⟩)
        (Practical6.menuGet [⟨1, "Coffee", 2.5⟩, ⟨2, "Tea", 2.0⟩])
        Practical6.emptyStore none
        ⟨1, [⟨1, 2⟩, ⟨2, 1⟩]⟩).2 = .ok view ∧
      view.orderItems.length = ([⟨1, 2⟩, ⟨2, 1⟩] : List Practical6.OrderItemReq).length ∧
      ∀ j (hj : j < ([⟨1, 2⟩, ⟨2, 1⟩] : List Practical6.OrderItemReq).length),
        ∃ item, Practical6.menuGet [⟨1, "Coffee", 2.5⟩, ⟨2, "Tea", 2.0⟩]
            ((([⟨1, 2⟩, ⟨2, 1⟩] : List Practical6.OrderItemReq).get ⟨j, hj⟩).menuItemId) =
              .ok item ∧
          ∃ hj2 : j < view.orderItems.length,
            (view.orderItems.get ⟨j, hj2⟩).menuItemId =
                (([⟨1, 2⟩, ⟨2, 1⟩] : List Practical6.OrderItemReq).get ⟨j, hj⟩).menuItemId ∧
            (view.orderItems.get ⟨j, hj2⟩).quantity =
                (([⟨1, 2⟩, ⟨2, 1⟩] : List Practical6.OrderItemReq).get ⟨j, hj⟩).quantity ∧
            (view.orderItems.get ⟨j, hj2⟩).price = item.price :=
  C8_lines_follow_request_order
    (fun _ => .ok ⟨1, "Test User", "test@example.com"⟩)
    (Practical6.menuGet [⟨1, "Coffee", 2.5⟩, ⟨2, "Tea", 2.0⟩])
    Practical6.emptyStore ⟨1, [⟨1, 2⟩, ⟨2, 1⟩]⟩ ⟨1, "Test User", "test@example.com"⟩
    [(⟨1, 2⟩, 2.5), (⟨2, 1⟩, 2.0)] rfl rfl rfl
